import Mathlib

/-!
Shallow embedding of `app/process_manager.py` (docker-udp-tunnel, v1.8.0).

The Python class `ProcessManager` is modelled as explicit state passing over
`PMState`.  Outcomes of external effects (spawning the udp2raw binary,
`subprocess.run` calls against iptables, file writes/reads) are supplied by an
`Env` oracle; a Python exception raised by such an effect is an `Except.error`.
Timestamps produced by `datetime.now()` are omitted from log records: no
property below depends on them.  The per-process output-pump threads
(`_log_reader`, `log_threads`) and the `threading.Event` stop signal are
real-time concurrency and are outside this sequential model; no claim below
depends on their contents, only on the sequential order of the supervisor's
own effects, which is recorded in a ghost `events` trace.
-/

set_option maxRecDepth 8000

namespace ProcessManager

/-- `self.bin_path` from `ProcessManager.__init__`. -/
def binPath : String := "/usr/local/bin/udp2raw"

/-- One line of the log sink: source alias plus message text
(`_add_log` formats them with a timestamp, which we omit). -/
structure LogRecord where
  aliasName : String
  msg : String
deriving Repr, DecidableEq

/-- A handle to a spawned child: its pid and whether `poll()` reports it
alive. -/
structure Proc where
  pid : Nat
  alive : Bool
deriving Repr, DecidableEq

/-- Ghost trace of the supervisor's externally visible effects, in program
order.  `terminate k` is the `proc.terminate()`/`kill()` escalation for key
`k`; `clearTable` is `self.processes = {}`; `fwReconcile` is the entry into
`_cleanup_iptables`; `spawn k` is the successful `subprocess.Popen` storing a
process under key `k`. -/
inductive Event where
  | terminate (key : String)
  | clearTable
  | fwReconcile
  | spawn (key : String)
deriving Repr, DecidableEq

/-- The mutable state of a `ProcessManager` object.  `processes` is the dict
`self.processes` (insertion-ordered); `logBuffer` is the
`deque(maxlen=500)`; `logFile` is the contents of the on-disk log file as
records; `events` is the ghost effect trace. -/
structure PMState where
  processes : List (String × Proc) := []
  logBuffer : List LogRecord := []
  logFile : List LogRecord := []
  events : List Event := []
deriving Repr, DecidableEq

/-- Oracle for the outcomes of the external effects the supervisor performs.
A constructor returning `Except String _` models a `subprocess.run` (or
spawn) call that may raise; the `String` is the exception text. -/
structure Env where
  /-- `os.path.exists(self.bin_path)` -/
  binExists : Bool
  /-- whether `subprocess.Popen` succeeds for the process keyed `mode_index` -/
  spawnOk : String → Bool
  /-- exception text when the spawn for that key fails -/
  spawnErr : String → String
  /-- pid assigned to a successful spawn for that key -/
  pidOf : String → Nat
  /-- `iptables -L INPUT -n --line-numbers` on loop iteration `i`, reduced to
  the line number of the first rule containing `udp2rawDwrW` (none = no such
  rule in the output); `.error` = the call raised -/
  listInput : Nat → Except String (Option Nat)
  /-- `iptables -D INPUT n` on iteration `i`: `true` = returncode 0 -/
  delRule : Nat → Nat → Except String Bool
  /-- `iptables -L -n` reduced to the `udp2rawDwrW_…` chain names found by
  the regex scan (before deduplication) -/
  chainsFound : Except String (List String)
  /-- `iptables -F chain` (its returncode is ignored by the source) -/
  flushChain : String → Except String Unit
  /-- `iptables -X chain`: `true` = returncode 0 -/
  delChain : String → Except String Bool
  /-- whether `open(self.log_file_path, 'w')` in `clear_logs` succeeds -/
  truncateOk : Bool
  /-- whether the append of a line to the log file in `_add_log` succeeds -/
  fileWriteOk : Bool
  /-- whether `get_logs` can open and read the log file -/
  fileReadOk : Bool

/-- Appending to `deque(maxlen=500)`: the oldest entry is evicted once the
buffer holds 500 records. -/
def appendEvict (l : List LogRecord) (r : LogRecord) : List LogRecord :=
  let l2 := l ++ [r]
  l2.drop (l2.length - 500)

/-- `_add_log(alias, message)`: skip empty messages, append to the bounded
in-memory buffer, then best-effort append to the log file (a failure of the
file write is caught and only sent to the Python logger). -/
def addLog (env : Env) (s : PMState) (al msg : String) : PMState :=
  if msg = "" then s
  else
    let r : LogRecord := ⟨al, msg⟩
    let s := { s with logBuffer := appendEvict s.logBuffer r }
    if env.fileWriteOk then { s with logFile := s.logFile ++ [r] } else s

/-- Python list slice `l[-n:]` for `n : Nat` (note `l[-0:]` is the whole
list). -/
def pyLastN (n : Nat) (l : List α) : List α :=
  if n = 0 then l else l.drop (l.length - n)

/-- `get_logs(lines)`: prefer the on-disk file when it can be read and is
non-empty, else fall back to the in-memory buffer.  The source additionally
strips and drops blank lines from the file; every record stored by `addLog`
is non-blank, so that filter is the identity here. -/
def getLogs (env : Env) (s : PMState) (lines : Nat) : List LogRecord :=
  if env.fileReadOk ∧ s.logFile ≠ [] then pyLastN lines s.logFile
  else pyLastN lines s.logBuffer

/-- `clear_logs()`: empty the in-memory buffer, then try to truncate the
file; only if truncation succeeded, record the "Logs cleared" event (an
exception from the truncation is caught and only sent to the Python
logger). -/
def clearLogs (env : Env) (s : PMState) : PMState :=
  let s := { s with logBuffer := [] }
  if env.truncateOk then
    let s := { s with logFile := [] }
    addLog env s "System" "Logs cleared"
  else s

/-- Python truthiness of an optional string field (`instance_conf.get(k)`):
present and non-empty. -/
def truthyS : Option String → Bool
  | some v => v ≠ ""
  | none => false

/-- Python truthiness of an optional numeric field: present and non-zero. -/
def truthyN : Option Nat → Bool
  | some v => v ≠ 0
  | none => false

/-- `extra_args` accepts a list of shell fragments or a single string
(backward compatibility). -/
inductive ExtraArgs where
  | list (l : List String)
  | str (sv : String)
deriving Repr, DecidableEq

/-- Python truthiness of the `extra_args` field. -/
def truthyE : Option ExtraArgs → Bool
  | some (.list l) => l ≠ []
  | some (.str sv) => sv ≠ ""
  | none => false

/-- Model of `shlex.split` for the quote-free fragments the config carries:
split on spaces, dropping empty tokens. -/
def shlexSplit (sv : String) : List String :=
  (sv.splitOn " ").filter (fun t => t ≠ "")

/-- One instance entry of the configuration snapshot (`servers[i]` or
`clients[i]`).  `none` models an absent JSON key; `seq_mode` distinguishes
absent (`none`, defaulted to 3) from explicit JSON null (`some none`,
skipped). -/
structure InstanceConf where
  enabled : Bool := false
  aliasName : Option String := none
  listen_ip : Option String := none
  listen_port : Option Nat := none
  forward_ip : Option String := none
  forward_port : Option Nat := none
  local_ip : Option String := none
  local_port : Option Nat := none
  server_ip : Option String := none
  server_port : Option Nat := none
  password : Option String := none
  raw_mode : Option String := none
  cipher_mode : Option String := none
  auth_mode : Option String := none
  auto_iptables : Option Bool := none
  source_ip : Option String := none
  source_port : Option Nat := none
  seq_mode : Option (Option Nat) := none
  lower_level : Option String := none
  dev : Option String := none
  disable_anti_replay : Option Bool := none
  disable_bpf : Option Bool := none
  extra_args : Option ExtraArgs := none
deriving Repr, DecidableEq

/-- The `global` section of the configuration snapshot. -/
structure GlobalConf where
  enabled : Option Bool := none
  log_level : Option String := none
  wait_lock : Option Bool := none
deriving Repr, DecidableEq

/-- A configuration snapshot `{global, servers, clients}`. -/
structure Config where
  globalConf : GlobalConf := {}
  servers : List InstanceConf := []
  clients : List InstanceConf := []
deriving Repr, DecidableEq

/-- The role string passed as `mode` to `_start_instance`. -/
inductive Mode where
  | server
  | client
deriving Repr, DecidableEq

def Mode.str : Mode → String
  | .server => "server"
  | .client => "client"

/-- The key `f"{mode}_{index}"`. -/
def procKey (mode : Mode) (index : Nat) : String :=
  mode.str ++ "_" ++ toString index

/-- `f"{ip}:{port}"`. -/
def addrStr (ip : String) (port : Nat) : String :=
  ip ++ ":" ++ toString port

/-- The `level_map` lookup with default 4. -/
def levelNum (level : String) : Nat :=
  if level = "fatal" then 1
  else if level = "error" then 2
  else if level = "warn" then 3
  else if level = "info" then 4
  else if level = "debug" then 5
  else if level = "trace" then 6
  else 4

/-- Mode flag and the two endpoint flag/value pairs (`-s`/`-c`, `-l`, `-r`)
from the role branch of `_start_instance`. -/
def modeSegment (mode : Mode) (ic : InstanceConf) : List String :=
  match mode with
  | .server =>
      ["-s", "-l", addrStr (ic.listen_ip.getD "0.0.0.0") (ic.listen_port.getD 29900),
       "-r", addrStr (ic.forward_ip.getD "127.0.0.1") (ic.forward_port.getD 51820)]
  | .client =>
      ["-c", "-l", addrStr (ic.local_ip.getD "127.0.0.1") (ic.local_port.getD 3333),
       "-r", addrStr (ic.server_ip.getD "127.0.0.1") (ic.server_port.getD 29900)]

/-- The client-only block: `--source-ip`, `--source-port` when truthy, and
`--seq-mode` (defaulted to 3 when absent, skipped on explicit null). -/
def clientSegment (mode : Mode) (ic : InstanceConf) : List String :=
  match mode with
  | .server => []
  | .client =>
      (if truthyS ic.source_ip then ["--source-ip", ic.source_ip.getD ""] else [])
      ++ (if truthyN ic.source_port then ["--source-port", toString (ic.source_port.getD 0)] else [])
      ++ (match ic.seq_mode with
          | none => ["--seq-mode", toString 3]
          | some none => []
          | some (some v) => ["--seq-mode", toString v])

/-- The common advanced parameters: `--lower-level`, `--dev`,
`--disable-anti-replay`, `--disable-bpf`. -/
def advancedSegment (ic : InstanceConf) : List String :=
  (if truthyS ic.lower_level then ["--lower-level", ic.lower_level.getD ""] else [])
  ++ (if truthyS ic.dev then ["--dev", ic.dev.getD ""] else [])
  ++ (if ic.disable_anti_replay.getD false then ["--disable-anti-replay"] else [])
  ++ (if ic.disable_bpf.getD false then ["--disable-bpf"] else [])

/-- The `extra_args` tokens (list fragments are trimmed, blank fragments
skipped; a plain string is tokenized whole). -/
def extraSegment (ic : InstanceConf) : List String :=
  if truthyE ic.extra_args then
    match ic.extra_args with
    | some (.list l) => l.foldl (fun acc a => acc ++ (if a.trim = "" then [] else shlexSplit a.trim)) []
    | some (.str sv) => shlexSplit sv
    | none => []
  else []

/-- The argument-vector construction of `_start_instance` (source lines
326–403): each `cmd.append`/`cmd.extend` block in order. -/
def buildCmd (mode : Mode) (ic : InstanceConf) (gc : GlobalConf) : List String :=
  [binPath]
  ++ modeSegment mode ic
  ++ ["-k", ic.password.getD "secret"]
  ++ ["--raw-mode", ic.raw_mode.getD "faketcp"]
  ++ ["--cipher-mode", ic.cipher_mode.getD "xor"]
  ++ ["--auth-mode", ic.auth_mode.getD "simple"]
  ++ (if ic.auto_iptables.getD true then ["-a"] else [])
  ++ clientSegment mode ic
  ++ advancedSegment ic
  ++ (if gc.wait_lock.getD true then ["--wait-lock"] else [])
  ++ ["--log-level", toString (levelNum (gc.log_level.getD "info"))]
  ++ extraSegment ic

/-- `self.processes[key] = proc` on the insertion-ordered dict: overwrite in
place when the key exists, else append. -/
def dictSet (m : List (String × Proc)) (k : String) (v : Proc) : List (String × Proc) :=
  if m.any (fun p => p.1 = k) then
    m.map (fun p => if p.1 = k then (k, v) else p)
  else m ++ [(k, v)]

/-- `_start_instance(mode, instance_conf, global_conf, index)`: bail out with
a System log when the binary is missing; otherwise build the command, log the
start attempt under the instance alias, spawn.  A successful spawn stores the
process under `mode_index` and logs the pid; a spawn exception is caught and
logged under the alias. -/
def startInstance (env : Env) (mode : Mode) (ic : InstanceConf) (gc : GlobalConf)
    (index : Nat) (s : PMState) : PMState :=
  if !env.binExists then
    addLog env s "System" ("udp2raw binary not found at " ++ binPath)
  else
    let cmd := buildCmd mode ic gc
    let al := ic.aliasName.getD (mode.str ++ "_" ++ toString index)
    let s := addLog env s al ("Starting: " ++ String.intercalate " " cmd)
    let key := procKey mode index
    if env.spawnOk key then
      let s := { s with
        processes := dictSet s.processes key ⟨env.pidOf key, true⟩,
        events := s.events ++ [Event.spawn key] }
      addLog env s al ("Started with PID: " ++ toString (env.pidOf key))
    else
      addLog env s al ("Failed to start: " ++ env.spawnErr key)

/-- The rule-deletion loop of `_cleanup_iptables` (`for _ in
range(max_iterations)`): list the INPUT chain, find the first `udp2rawDwrW`
rule, delete it by line number; stop when none is left, when a deletion
reports failure, or when the iteration cap is hit.  Exceptions from
`subprocess.run` propagate to the outer handler.  Returns `deleted_rules`. -/
def cleanupRulesLoop (env : Env) : Nat → Nat → Nat → Except String Nat
  | _, 0, count => .ok count
  | iter, fuel + 1, count =>
    match env.listInput iter with
    | .error e => .error e
    | .ok none => .ok count
    | .ok (some n) =>
      match env.delRule iter n with
      | .error e => .error e
      | .ok true => cleanupRulesLoop env (iter + 1) fuel (count + 1)
      | .ok false => .ok count

/-- The per-chain flush-and-delete loop of `_cleanup_iptables`: each chain's
exceptions are caught individually (`logger.debug`, which does not reach the
log sink) and the loop continues; `deleted_chains` counts only deletions
whose returncode was 0. -/
def cleanupChains (env : Env) (chains : List String) : Nat :=
  chains.foldl
    (fun cnt c =>
      match env.flushChain c with
      | .error _ => cnt
      | .ok _ =>
        match env.delChain c with
        | .error _ => cnt
        | .ok true => cnt + 1
        | .ok false => cnt)
    0

/-- The body of `_cleanup_iptables` up to (but excluding) its logging:
`(deleted_rules, deleted_chains)`, or the first uncaught subprocess
exception.  `max_iterations = 100`. -/
def cleanupCounts (env : Env) : Except String (Nat × Nat) :=
  match cleanupRulesLoop env 0 100 0 with
  | .error e => .error e
  | .ok rules =>
    match env.chainsFound with
    | .error e => .error e
    | .ok raw => .ok (rules, cleanupChains env raw.eraseDups)

/-- `_cleanup_iptables()`: run the body inside `try`; on success log the
"Cleaned…" summary when anything was removed; any exception is caught and
degraded to an "iptables cleanup warning" log record.  The `fwReconcile`
ghost event marks the entry into the reconciler. -/
def cleanupIptables (env : Env) (s : PMState) : PMState :=
  let s := { s with events := s.events ++ [Event.fwReconcile] }
  match cleanupCounts env with
  | .ok (rules, chains) =>
    if rules > 0 ∨ chains > 0 then
      addLog env s "System"
        ("Cleaned " ++ toString rules ++ " rules, " ++ toString chains ++ " chains")
    else s
  | .error e => addLog env s "System" ("iptables cleanup warning: " ++ e)

/-- The ghost events of the termination loop of `stop_all`: one `terminate`
per tracked process whose `poll()` reports it alive. -/
def terminateEvents (procs : List (String × Proc)) : List Event :=
  procs.filterMap (fun p => if p.2.alive then some (Event.terminate p.1) else none)

/-- `stop_all()`: terminate every live tracked process, clear the process
table, then run the firewall reconciler.  (The subsequent joining of pump
threads and clearing of the stop event touch no modelled state.) -/
def stopAll (env : Env) (s : PMState) : PMState :=
  let s := { s with events := s.events ++ terminateEvents s.processes }
  let s := { s with processes := [], events := s.events ++ [Event.clearTable] }
  cleanupIptables env s

/-- The `for idx, x in enumerate(...)` loop of `start_tunnels` over one
role's list, starting `x` when its own enabled flag is truthy. -/
def startListAux (env : Env) (mode : Mode) (gc : GlobalConf) :
    List InstanceConf → Nat → PMState → PMState
  | [], _, s => s
  | ic :: rest, idx, s =>
    let s := if ic.enabled then startInstance env mode ic gc idx s else s
    startListAux env mode gc rest (idx + 1) s

/-- `start_tunnels(config)`: unconditionally `stop_all()` first, log
"Applying configuration...", return after the "globally disabled" notice when
the global enabled flag is not truthy, else start the enabled servers then
the enabled clients in list order. -/
def startTunnels (env : Env) (cfg : Config) (s : PMState) : PMState :=
  let s := stopAll env s
  let s := addLog env s "System" "Applying configuration..."
  if !(cfg.globalConf.enabled.getD false) then
    addLog env s "System" "Service is globally disabled"
  else
    let s := startListAux env .server cfg.globalConf cfg.servers 0 s
    startListAux env .client cfg.globalConf cfg.clients 0 s

/-- The value tokens the builder can emit next to a flag (over-approximated:
both role branches' endpoint strings are listed).  Used to state that a flag
string does not collide with any configured value. -/
def valueTokens (ic : InstanceConf) (gc : GlobalConf) : List String :=
  [addrStr (ic.listen_ip.getD "0.0.0.0") (ic.listen_port.getD 29900),
   addrStr (ic.forward_ip.getD "127.0.0.1") (ic.forward_port.getD 51820),
   addrStr (ic.local_ip.getD "127.0.0.1") (ic.local_port.getD 3333),
   addrStr (ic.server_ip.getD "127.0.0.1") (ic.server_port.getD 29900),
   ic.password.getD "secret", ic.raw_mode.getD "faketcp",
   ic.cipher_mode.getD "xor", ic.auth_mode.getD "simple",
   ic.source_ip.getD "", toString (ic.source_port.getD 0),
   toString ((ic.seq_mode.getD (some 3)).getD 0),
   ic.lower_level.getD "", ic.dev.getD "",
   toString (levelNum (gc.log_level.getD "info"))]

/-! ### Concrete fixtures for witnesses and counterexamples -/

/-- An environment where every external effect succeeds and the firewall is
already clean. -/
def envOk : Env where
  binExists := true
  spawnOk := fun _ => true
  spawnErr := fun _ => "boom"
  pidOf := fun _ => 1234
  listInput := fun _ => .ok none
  delRule := fun _ _ => .ok true
  chainsFound := .ok []
  flushChain := fun _ => .ok ()
  delChain := fun _ => .ok true
  truncateOk := true
  fileWriteOk := true
  fileReadOk := true

/-- `envOk` except that truncating the log file in `clear_logs` raises. -/
def envNoTrunc : Env := { envOk with truncateOk := false }

/-- `envOk` except that listing the INPUT chain raises (e.g. the iptables
tool is missing). -/
def envIptErr : Env := { envOk with listInput := fun _ => .error "iptables: command not found" }

/-- `envOk` except that the spawn for key `server_0` raises. -/
def envSpawnFail0 : Env := { envOk with spawnOk := fun k => k ≠ "server_0" }

/-- A state holding one pre-existing log record in buffer and file. -/
def sPre : PMState where
  logBuffer := [⟨"a", "pre-clear"⟩]
  logFile := [⟨"a", "pre-clear"⟩]

/-- The empty initial state. -/
def s0 : PMState := {}

/-- A configuration snapshot whose global section is absent (hence the
service-enabled flag is falsy). -/
def cfgDisabled : Config := {}

/-- A client instance exercising the optional parameters. -/
def icClientW : InstanceConf where
  enabled := true
  source_ip := some "10.0.0.7"
  lower_level := some "auto"
  disable_anti_replay := some true

/-- A server instance carrying decoy values in the free-string fields. -/
def icServerW : InstanceConf where
  enabled := true
  password := some "pw"
  dev := some "eth0"

/-- An enabled two-server configuration whose first server will fail to
spawn under `envSpawnFail0`. -/
def cfgTwoServers : Config where
  globalConf := { enabled := some true }
  servers := [{ enabled := true, aliasName := some "first" },
              { enabled := true, aliasName := some "second" }]

/-- `envOk` except that the udp2raw binary is missing. -/
def envNoBin : Env := { envOk with binExists := false }

/-- `envOk` except that the INPUT chain always shows a `udp2rawDwrW` rule at
line 5 and every `iptables -D` mutation reports failure (returncode ≠ 0). -/
def envDelFail : Env :=
  { envOk with listInput := fun _ => .ok (some 5), delRule := fun _ _ => .ok false }

/-- `envOk` except that one `udp2rawDwrW_…` chain is found and flushing it
raises (the per-chain handler catches this). -/
def envChainErr : Env :=
  { envOk with chainsFound := .ok ["udp2rawDwrW_abc"],
               flushChain := fun _ => .error "oops" }

/-- An enabled configuration with a single aliased server instance. -/
def cfgOneServer : Config where
  globalConf := { enabled := some true }
  servers := [{ enabled := true, aliasName := some "first" }]

/-! ### Basic preservation lemmas -/

theorem addLog_processes (env : Env) (s : PMState) (al m : String) :
    (addLog env s al m).processes = s.processes := by
  unfold addLog
  split
  · rfl
  · split <;> rfl

theorem addLog_events (env : Env) (s : PMState) (al m : String) :
    (addLog env s al m).events = s.events := by
  unfold addLog
  split
  · rfl
  · split <;> rfl

theorem addLog_logBuffer (env : Env) (s : PMState) (al m : String) (hm : m ≠ "") :
    (addLog env s al m).logBuffer = appendEvict s.logBuffer ⟨al, m⟩ := by
  unfold addLog
  split
  · exact absurd (by assumption) hm
  · split <;> rfl

theorem addLog_logFile_mono (env : Env) (s : PMState) (al m : String) (r : LogRecord)
    (h : r ∈ s.logFile) : r ∈ (addLog env s al m).logFile := by
  unfold addLog
  split
  · exact h
  · split
    · exact List.mem_append_left _ h
    · exact h

theorem cleanupIptables_processes (env : Env) (s : PMState) :
    (cleanupIptables env s).processes = s.processes := by
  unfold cleanupIptables
  split
  · split
    · rw [addLog_processes]
    · rfl
  · rw [addLog_processes]

theorem cleanupIptables_events (env : Env) (s : PMState) :
    (cleanupIptables env s).events = s.events ++ [Event.fwReconcile] := by
  unfold cleanupIptables
  split
  · split
    · rw [addLog_events]
    · rfl
  · rw [addLog_events]

theorem stopAll_processes (env : Env) (s : PMState) :
    (stopAll env s).processes = [] := by
  unfold stopAll
  rw [cleanupIptables_processes]

theorem stopAll_events (env : Env) (s : PMState) :
    (stopAll env s).events
      = s.events ++ terminateEvents s.processes ++ [Event.clearTable, Event.fwReconcile] := by
  unfold stopAll
  rw [cleanupIptables_events]
  simp

/-! ### C10 -/

/-- C10: if truncating the on-disk file in `clear_logs` raises, the
in-memory buffer has already been emptied, the "Logs cleared" record is not
appended, and the file retains its pre-clear contents. -/
theorem clear_logs_partial_failure (env : Env) (s : PMState)
    (h : env.truncateOk = false) :
    (clearLogs env s).logBuffer = [] ∧ (clearLogs env s).logFile = s.logFile := by
  unfold clearLogs
  rw [h]
  simp

theorem clear_logs_partial_failure_witness :
    envNoTrunc.truncateOk = false ∧
      ((clearLogs envNoTrunc sPre).logBuffer = [] ∧
        (clearLogs envNoTrunc sPre).logFile = sPre.logFile) :=
  ⟨rfl, clear_logs_partial_failure envNoTrunc sPre rfl⟩

/-! ### C7 -/

theorem pyLastN_subset {α : Type} (n : Nat) (l : List α) :
    ∀ x ∈ pyLastN n l, x ∈ l := by
  unfold pyLastN
  split
  · exact fun x h => h
  · exact fun x h => List.mem_of_mem_drop h

/-- C7 fails on the code: when the file truncation in `clear_logs` raises,
`get_logs` (which prefers the file) returns the pre-clear record. -/
theorem clear_get_logs_resurfaces :
    (⟨"a", "pre-clear"⟩ : LogRecord) ∈ sPre.logFile ∧
      (clearLogs envNoTrunc sPre).logBuffer = [] ∧
      getLogs envNoTrunc (clearLogs envNoTrunc sPre) 1 = [⟨"a", "pre-clear"⟩] := by
  decide

/-- C7 amended: provided the on-disk truncation succeeds, `clear_logs()`
followed by `get_logs(n)` returns at most the records appended after the
clear (here only the "Logs cleared" marker). -/
theorem clear_get_logs_roundtrip (env : Env) (s : PMState) (n : Nat)
    (h : env.truncateOk = true) :
    ∀ r ∈ getLogs env (clearLogs env s) n, r = ⟨"System", "Logs cleared"⟩ := by
  intro r hr
  have hb : (clearLogs env s).logBuffer = [⟨"System", "Logs cleared"⟩] := by
    unfold clearLogs
    rw [h, if_pos rfl]
    rw [addLog_logBuffer _ _ _ _ (by decide)]
    rfl
  have hf : (clearLogs env s).logFile = [⟨"System", "Logs cleared"⟩]
      ∨ (clearLogs env s).logFile = [] := by
    unfold clearLogs
    rw [h, if_pos rfl]
    unfold addLog
    rw [if_neg (by decide)]
    split
    · left; rfl
    · right; rfl
  unfold getLogs at hr
  split at hr
  · rcases hf with hf | hf
    · have := pyLastN_subset n _ r hr
      rw [hf] at this
      simpa using this
    · simp_all
  · have := pyLastN_subset n _ r hr
    rw [hb] at this
    simpa using this

theorem clear_get_logs_roundtrip_witness :
    envOk.truncateOk = true ∧
      ∀ r ∈ getLogs envOk (clearLogs envOk sPre) 3, r = ⟨"System", "Logs cleared"⟩ :=
  ⟨rfl, clear_get_logs_roundtrip envOk sPre 3 rfl⟩

/-! ### C2 -/

theorem appendEvict_small (l : List LogRecord) (r : LogRecord) (h : l.length < 500) :
    appendEvict l r = l ++ [r] := by
  simp only [appendEvict]
  rw [Nat.sub_eq_zero_of_le (by simp; omega)]
  simp

theorem stopAll_envOk_logBuffer (s : PMState) : (stopAll envOk s).logBuffer = s.logBuffer := by
  have hc : cleanupCounts envOk = .ok (0, 0) := rfl
  unfold stopAll cleanupIptables
  rw [hc]
  simp

/-- C2 fails on the code: with the global flag disabled, `start_tunnels`
appends two records ("Applying configuration..." and the disabled notice),
not exactly one. -/
theorem start_tunnels_disabled_not_one_log :
    cfgDisabled.globalConf.enabled.getD false = false ∧
      (startTunnels envOk cfgDisabled s0).logBuffer.length = 2 ∧
      ¬(startTunnels envOk cfgDisabled s0).logBuffer.length = s0.logBuffer.length + 1 := by
  have h2 : (startTunnels envOk cfgDisabled s0).logBuffer.length = 2 := by
    unfold startTunnels
    rw [if_pos (by decide)]
    rw [addLog_logBuffer _ _ "System" "Service is globally disabled" (by decide),
      addLog_logBuffer _ _ "System" "Applying configuration..." (by decide)]
    rw [stopAll_envOk_logBuffer]
    rfl
  exact ⟨rfl, h2, by rw [h2]; decide⟩

/-- C2 amended: with the global flag disabled, `start_tunnels` leaves the
process table empty, spawns nothing (the event trace is exactly the stop
phase's), and appends exactly the "Applying configuration..." record
followed by the "Service is globally disabled" notice to whatever `stop_all`
itself logged. -/
theorem start_tunnels_disabled (env : Env) (cfg : Config) (s : PMState)
    (h : cfg.globalConf.enabled.getD false = false) :
    (startTunnels env cfg s).processes = [] ∧
      (startTunnels env cfg s).events = (stopAll env s).events ∧
      (startTunnels env cfg s).logBuffer =
        appendEvict
          (appendEvict (stopAll env s).logBuffer ⟨"System", "Applying configuration..."⟩)
          ⟨"System", "Service is globally disabled"⟩ := by
  unfold startTunnels
  rw [h, if_pos (by decide)]
  refine ⟨?_, ?_, ?_⟩
  · rw [addLog_processes, addLog_processes, stopAll_processes]
  · rw [addLog_events, addLog_events]
  · rw [addLog_logBuffer _ _ "System" "Service is globally disabled" (by decide),
      addLog_logBuffer _ _ "System" "Applying configuration..." (by decide)]

theorem start_tunnels_disabled_witness :
    cfgDisabled.globalConf.enabled.getD false = false ∧
      ((startTunnels envOk cfgDisabled sPre).processes = [] ∧
        (startTunnels envOk cfgDisabled sPre).events = (stopAll envOk sPre).events ∧
        (startTunnels envOk cfgDisabled sPre).logBuffer =
          appendEvict
            (appendEvict (stopAll envOk sPre).logBuffer ⟨"System", "Applying configuration..."⟩)
            ⟨"System", "Service is globally disabled"⟩) :=
  ⟨rfl, start_tunnels_disabled envOk cfgDisabled sPre rfl⟩

/-! ### C8 -/

theorem warning_msg_ne_empty (e : String) : ("iptables cleanup warning: " ++ e) ≠ "" := by
  intro hh
  have hlen := congrArg String.length hh
  rw [String.length_append] at hlen
  have h26 : "iptables cleanup warning: ".length = 26 := rfl
  have h0 : "".length = 0 := rfl
  rw [h26, h0] at hlen
  omega

theorem cleaned_msg_ne_empty (r c : Nat) :
    ("Cleaned " ++ toString r ++ " rules, " ++ toString c ++ " chains") ≠ "" := by
  intro hh
  have hlen := congrArg String.length hh
  simp only [String.length_append] at hlen
  have h8 : "Cleaned ".length = 8 := rfl
  have h0 : "".length = 0 := rfl
  rw [h8, h0] at hlen
  omega

/-- C8 fails as stated: two firewall mutation failures leave no warning log
entry at all.  With every `iptables -D` reporting failure (returncode ≠ 0)
the deletion loop silently breaks, and with a per-chain `iptables -F`
raising, the per-chain handler downgrades it to debug-level logging outside
the log sink — in both runs the reconciler appends nothing to the buffer or
the file. -/
theorem cleanup_mutation_failure_no_warning :
    envDelFail.listInput 0 = .ok (some 5) ∧
      envDelFail.delRule 0 5 = .ok false ∧
      (cleanupIptables envDelFail sPre).logBuffer = sPre.logBuffer ∧
      (cleanupIptables envDelFail sPre).logFile = sPre.logFile ∧
      envChainErr.chainsFound = .ok ["udp2rawDwrW_abc"] ∧
      envChainErr.flushChain "udp2rawDwrW_abc" = .error "oops" ∧
      (cleanupIptables envChainErr sPre).logBuffer = sPre.logBuffer ∧
      (cleanupIptables envChainErr sPre).logFile = sPre.logFile :=
  ⟨rfl, rfl, rfl, rfl, rfl, rfl, rfl, rfl⟩

/-- C8 amended: no failure to query or mutate firewall state ever raises out
of the reconciler or aborts a stop/start cycle — the reconciler always
returns, never touches the process table, and `stop_all` always completes
with an empty table.  A failure that escapes to the reconciler's outer
handler degrades to a single "iptables cleanup warning" log record; a
tolerated failure (per-chain flush/delete, or a deletion reporting a
non-zero returncode) produces at most the "Cleaned" summary and in
particular no warning record. -/
theorem cleanup_best_effort (env : Env) (s : PMState) :
    (stopAll env s).processes = [] ∧
      (cleanupIptables env s).processes = s.processes ∧
      (∀ e, cleanupCounts env = .error e →
        (cleanupIptables env s).logBuffer
          = appendEvict s.logBuffer ⟨"System", "iptables cleanup warning: " ++ e⟩) ∧
      (∀ r c, cleanupCounts env = .ok (r, c) → (r > 0 ∨ c > 0) →
        (cleanupIptables env s).logBuffer
          = appendEvict s.logBuffer
              ⟨"System", "Cleaned " ++ toString r ++ " rules, " ++ toString c ++ " chains"⟩) ∧
      (∀ r c, cleanupCounts env = .ok (r, c) → ¬(r > 0 ∨ c > 0) →
        (cleanupIptables env s).logBuffer = s.logBuffer) := by
  refine ⟨stopAll_processes env s, cleanupIptables_processes env s, ?_, ?_, ?_⟩
  · intro e he
    unfold cleanupIptables
    rw [he]
    rw [addLog_logBuffer _ _ _ _ (warning_msg_ne_empty e)]
  · intro r c hrc hcond
    unfold cleanupIptables
    simp only [hrc]
    rw [if_pos hcond]
    rw [addLog_logBuffer _ _ _ _ (cleaned_msg_ne_empty r c)]
  · intro r c hrc hcond
    unfold cleanupIptables
    simp only [hrc]
    rw [if_neg hcond]

theorem cleanup_best_effort_witness :
    cleanupCounts envIptErr = .error "iptables: command not found" ∧
      ((stopAll envIptErr sPre).processes = [] ∧
        (cleanupIptables envIptErr sPre).processes = sPre.processes ∧
        (cleanupIptables envIptErr sPre).logBuffer
          = appendEvict sPre.logBuffer
              ⟨"System", "iptables cleanup warning: " ++ "iptables: command not found"⟩) :=
  ⟨rfl, (cleanup_best_effort envIptErr sPre).1, (cleanup_best_effort envIptErr sPre).2.1,
    (cleanup_best_effort envIptErr sPre).2.2.1 _ rfl⟩

/-! ### C6 -/

/-- C6: `stop_all` twice in a row is idempotent — the second call starts
from an empty process table, its event trace delta contains no process
termination, yet it still enters the firewall reconciler. -/
theorem stop_all_idempotent (env env2 : Env) (s : PMState) :
    (stopAll env s).processes = [] ∧
      ∃ rest, (stopAll env2 (stopAll env s)).events = (stopAll env s).events ++ rest ∧
        (∀ k, Event.terminate k ∉ rest) ∧ Event.fwReconcile ∈ rest := by
  refine ⟨stopAll_processes env s, [Event.clearTable, Event.fwReconcile], ?_, ?_, ?_⟩
  · rw [stopAll_events env2 (stopAll env s), stopAll_processes env s]
    simp [terminateEvents]
  · intro k
    simp
  · simp

/-! ### Command-builder membership -/

theorem mem_ite_nil {α : Type} (c : Prop) [Decidable c] (x : α) (l : List α) :
    x ∈ (if c then l else []) ↔ c ∧ x ∈ l := by
  split <;> simp_all

theorem extraSegment_none (ic : InstanceConf) (hx : ic.extra_args = none) :
    extraSegment ic = [] := by
  unfold extraSegment
  rw [hx]
  rfl

/-- `--source-ip` is emitted exactly for a client instance whose
`source_ip` is present and non-empty (probe under no value collision and no
extra args). -/
theorem mem_buildCmd_sourceIp (mode : Mode) (ic : InstanceConf) (gc : GlobalConf)
    (hx : ic.extra_args = none) (hv : "--source-ip" ∉ valueTokens ic gc) :
    ("--source-ip" ∈ buildCmd mode ic gc ↔ mode = Mode.client ∧ truthyS ic.source_ip = true) := by
  have hE := extraSegment_none ic hx
  simp only [valueTokens, List.mem_cons, List.not_mem_nil, or_false] at hv
  push_neg at hv
  obtain ⟨w1, w2, w3, w4, w5, w6, w7, w8, w9, w10, w11, w12, w13, w14⟩ := hv
  cases mode with
  | server =>
    simp [buildCmd, modeSegment, clientSegment, advancedSegment, hE, mem_ite_nil, binPath,
      w1, w2, w5, w6, w7, w8, w12, w13, w14]
  | client =>
    rcases hq : ic.seq_mode with _ | sq
    · simp only [hq, Option.getD_none, Option.getD_some] at w11
      simp [buildCmd, modeSegment, clientSegment, advancedSegment, hE, hq, mem_ite_nil, binPath,
        w3, w4, w5, w6, w7, w8, w9, w10, w11, w12, w13, w14]
    · rcases sq with _ | v
      · simp [buildCmd, modeSegment, clientSegment, advancedSegment, hE, hq, mem_ite_nil, binPath,
          w3, w4, w5, w6, w7, w8, w9, w10, w12, w13, w14]
      · simp only [hq, Option.getD_some] at w11
        simp [buildCmd, modeSegment, clientSegment, advancedSegment, hE, hq, mem_ite_nil, binPath,
          w3, w4, w5, w6, w7, w8, w9, w10, w11, w12, w13, w14]

/-- `--source-port` is emitted exactly for a client instance whose
`source_port` is present and non-zero. -/
theorem mem_buildCmd_sourcePort (mode : Mode) (ic : InstanceConf) (gc : GlobalConf)
    (hx : ic.extra_args = none) (hv : "--source-port" ∉ valueTokens ic gc) :
    ("--source-port" ∈ buildCmd mode ic gc ↔ mode = Mode.client ∧ truthyN ic.source_port = true) := by
  have hE := extraSegment_none ic hx
  simp only [valueTokens, List.mem_cons, List.not_mem_nil, or_false] at hv
  push_neg at hv
  obtain ⟨w1, w2, w3, w4, w5, w6, w7, w8, w9, w10, w11, w12, w13, w14⟩ := hv
  cases mode with
  | server =>
    simp [buildCmd, modeSegment, clientSegment, advancedSegment, hE, mem_ite_nil, binPath,
      w1, w2, w5, w6, w7, w8, w12, w13, w14]
  | client =>
    rcases hq : ic.seq_mode with _ | sq
    · simp only [hq, Option.getD_none, Option.getD_some] at w11
      simp [buildCmd, modeSegment, clientSegment, advancedSegment, hE, hq, mem_ite_nil, binPath,
        w3, w4, w5, w6, w7, w8, w9, w10, w11, w12, w13, w14]
    · rcases sq with _ | v
      · simp [buildCmd, modeSegment, clientSegment, advancedSegment, hE, hq, mem_ite_nil, binPath,
          w3, w4, w5, w6, w7, w8, w9, w10, w12, w13, w14]
      · simp only [hq, Option.getD_some] at w11
        simp [buildCmd, modeSegment, clientSegment, advancedSegment, hE, hq, mem_ite_nil, binPath,
          w3, w4, w5, w6, w7, w8, w9, w10, w11, w12, w13, w14]

/-- `--lower-level` is emitted exactly when `lower_level` is present and
non-empty. -/
theorem mem_buildCmd_lowerLevel (mode : Mode) (ic : InstanceConf) (gc : GlobalConf)
    (hx : ic.extra_args = none) (hv : "--lower-level" ∉ valueTokens ic gc) :
    ("--lower-level" ∈ buildCmd mode ic gc ↔ truthyS ic.lower_level = true) := by
  have hE := extraSegment_none ic hx
  simp only [valueTokens, List.mem_cons, List.not_mem_nil, or_false] at hv
  push_neg at hv
  obtain ⟨w1, w2, w3, w4, w5, w6, w7, w8, w9, w10, w11, w12, w13, w14⟩ := hv
  cases mode with
  | server =>
    simp [buildCmd, modeSegment, clientSegment, advancedSegment, hE, mem_ite_nil, binPath,
      w1, w2, w5, w6, w7, w8, w12, w13, w14]
  | client =>
    rcases hq : ic.seq_mode with _ | sq
    · simp only [hq, Option.getD_none, Option.getD_some] at w11
      simp [buildCmd, modeSegment, clientSegment, advancedSegment, hE, hq, mem_ite_nil, binPath,
        w3, w4, w5, w6, w7, w8, w9, w10, w11, w12, w13, w14]
    · rcases sq with _ | v
      · simp [buildCmd, modeSegment, clientSegment, advancedSegment, hE, hq, mem_ite_nil, binPath,
          w3, w4, w5, w6, w7, w8, w9, w10, w12, w13, w14]
      · simp only [hq, Option.getD_some] at w11
        simp [buildCmd, modeSegment, clientSegment, advancedSegment, hE, hq, mem_ite_nil, binPath,
          w3, w4, w5, w6, w7, w8, w9, w10, w11, w12, w13, w14]

/-- `--dev` is emitted exactly when `dev` is present and non-empty. -/
theorem mem_buildCmd_dev (mode : Mode) (ic : InstanceConf) (gc : GlobalConf)
    (hx : ic.extra_args = none) (hv : "--dev" ∉ valueTokens ic gc) :
    ("--dev" ∈ buildCmd mode ic gc ↔ truthyS ic.dev = true) := by
  have hE := extraSegment_none ic hx
  simp only [valueTokens, List.mem_cons, List.not_mem_nil, or_false] at hv
  push_neg at hv
  obtain ⟨w1, w2, w3, w4, w5, w6, w7, w8, w9, w10, w11, w12, w13, w14⟩ := hv
  cases mode with
  | server =>
    simp [buildCmd, modeSegment, clientSegment, advancedSegment, hE, mem_ite_nil, binPath,
      w1, w2, w5, w6, w7, w8, w12, w13, w14]
  | client =>
    rcases hq : ic.seq_mode with _ | sq
    · simp only [hq, Option.getD_none, Option.getD_some] at w11
      simp [buildCmd, modeSegment, clientSegment, advancedSegment, hE, hq, mem_ite_nil, binPath,
        w3, w4, w5, w6, w7, w8, w9, w10, w11, w12, w13, w14]
    · rcases sq with _ | v
      · simp [buildCmd, modeSegment, clientSegment, advancedSegment, hE, hq, mem_ite_nil, binPath,
          w3, w4, w5, w6, w7, w8, w9, w10, w12, w13, w14]
      · simp only [hq, Option.getD_some] at w11
        simp [buildCmd, modeSegment, clientSegment, advancedSegment, hE, hq, mem_ite_nil, binPath,
          w3, w4, w5, w6, w7, w8, w9, w10, w11, w12, w13, w14]

/-- `--disable-anti-replay` is emitted as a bare flag exactly when the
field is true. -/
theorem mem_buildCmd_dar (mode : Mode) (ic : InstanceConf) (gc : GlobalConf)
    (hx : ic.extra_args = none) (hv : "--disable-anti-replay" ∉ valueTokens ic gc) :
    ("--disable-anti-replay" ∈ buildCmd mode ic gc ↔ ic.disable_anti_replay.getD false = true) := by
  have hE := extraSegment_none ic hx
  simp only [valueTokens, List.mem_cons, List.not_mem_nil, or_false] at hv
  push_neg at hv
  obtain ⟨w1, w2, w3, w4, w5, w6, w7, w8, w9, w10, w11, w12, w13, w14⟩ := hv
  cases mode with
  | server =>
    simp [buildCmd, modeSegment, clientSegment, advancedSegment, hE, mem_ite_nil, binPath,
      w1, w2, w5, w6, w7, w8, w12, w13, w14]
  | client =>
    rcases hq : ic.seq_mode with _ | sq
    · simp only [hq, Option.getD_none, Option.getD_some] at w11
      simp [buildCmd, modeSegment, clientSegment, advancedSegment, hE, hq, mem_ite_nil, binPath,
        w3, w4, w5, w6, w7, w8, w9, w10, w11, w12, w13, w14]
    · rcases sq with _ | v
      · simp [buildCmd, modeSegment, clientSegment, advancedSegment, hE, hq, mem_ite_nil, binPath,
          w3, w4, w5, w6, w7, w8, w9, w10, w12, w13, w14]
      · simp only [hq, Option.getD_some] at w11
        simp [buildCmd, modeSegment, clientSegment, advancedSegment, hE, hq, mem_ite_nil, binPath,
          w3, w4, w5, w6, w7, w8, w9, w10, w11, w12, w13, w14]

/-- `--disable-bpf` is emitted as a bare flag exactly when the field is
true. -/
theorem mem_buildCmd_dbpf (mode : Mode) (ic : InstanceConf) (gc : GlobalConf)
    (hx : ic.extra_args = none) (hv : "--disable-bpf" ∉ valueTokens ic gc) :
    ("--disable-bpf" ∈ buildCmd mode ic gc ↔ ic.disable_bpf.getD false = true) := by
  have hE := extraSegment_none ic hx
  simp only [valueTokens, List.mem_cons, List.not_mem_nil, or_false] at hv
  push_neg at hv
  obtain ⟨w1, w2, w3, w4, w5, w6, w7, w8, w9, w10, w11, w12, w13, w14⟩ := hv
  cases mode with
  | server =>
    simp [buildCmd, modeSegment, clientSegment, advancedSegment, hE, mem_ite_nil, binPath,
      w1, w2, w5, w6, w7, w8, w12, w13, w14]
  | client =>
    rcases hq : ic.seq_mode with _ | sq
    · simp only [hq, Option.getD_none, Option.getD_some] at w11
      simp [buildCmd, modeSegment, clientSegment, advancedSegment, hE, hq, mem_ite_nil, binPath,
        w3, w4, w5, w6, w7, w8, w9, w10, w11, w12, w13, w14]
    · rcases sq with _ | v
      · simp [buildCmd, modeSegment, clientSegment, advancedSegment, hE, hq, mem_ite_nil, binPath,
          w3, w4, w5, w6, w7, w8, w9, w10, w12, w13, w14]
      · simp only [hq, Option.getD_some] at w11
        simp [buildCmd, modeSegment, clientSegment, advancedSegment, hE, hq, mem_ite_nil, binPath,
          w3, w4, w5, w6, w7, w8, w9, w10, w11, w12, w13, w14]

/-- The sequence-number emulation flag is never emitted for a server-role
instance. -/
theorem server_not_mem_seqMode (ic : InstanceConf) (gc : GlobalConf)
    (hx : ic.extra_args = none) (hv : "--seq-mode" ∉ valueTokens ic gc) :
    "--seq-mode" ∉ buildCmd .server ic gc := by
  have hE := extraSegment_none ic hx
  simp only [valueTokens, List.mem_cons, List.not_mem_nil, or_false] at hv
  push_neg at hv
  obtain ⟨w1, w2, w3, w4, w5, w6, w7, w8, w9, w10, w11, w12, w13, w14⟩ := hv
  simp [buildCmd, modeSegment, clientSegment, advancedSegment, hE, mem_ite_nil, binPath,
    w1, w2, w5, w6, w7, w8, w12, w13, w14]

/-! ### C3 -/

/-- C3: an optional parameter's flag/value pair is emitted iff that
parameter is present and non-empty (and, for the source overrides, the role
is client); each boolean "disable" flag is emitted as a bare flag exactly
when its value is true.  Stated for instances without free-form extra
arguments and whose configured values do not collide with the probed flag
strings. -/
theorem optional_flags_iff (mode : Mode) (ic : InstanceConf) (gc : GlobalConf)
    (hx : ic.extra_args = none)
    (h1 : "--source-ip" ∉ valueTokens ic gc)
    (h2 : "--source-port" ∉ valueTokens ic gc)
    (h3 : "--lower-level" ∉ valueTokens ic gc)
    (h4 : "--dev" ∉ valueTokens ic gc)
    (h5 : "--disable-anti-replay" ∉ valueTokens ic gc)
    (h6 : "--disable-bpf" ∉ valueTokens ic gc) :
    ("--source-ip" ∈ buildCmd mode ic gc ↔ mode = Mode.client ∧ truthyS ic.source_ip = true)
      ∧ ("--source-port" ∈ buildCmd mode ic gc ↔ mode = Mode.client ∧ truthyN ic.source_port = true)
      ∧ ("--lower-level" ∈ buildCmd mode ic gc ↔ truthyS ic.lower_level = true)
      ∧ ("--dev" ∈ buildCmd mode ic gc ↔ truthyS ic.dev = true)
      ∧ ("--disable-anti-replay" ∈ buildCmd mode ic gc ↔ ic.disable_anti_replay.getD false = true)
      ∧ ("--disable-bpf" ∈ buildCmd mode ic gc ↔ ic.disable_bpf.getD false = true) :=
  ⟨mem_buildCmd_sourceIp mode ic gc hx h1, mem_buildCmd_sourcePort mode ic gc hx h2,
    mem_buildCmd_lowerLevel mode ic gc hx h3, mem_buildCmd_dev mode ic gc hx h4,
    mem_buildCmd_dar mode ic gc hx h5, mem_buildCmd_dbpf mode ic gc hx h6⟩

theorem optional_flags_iff_witness :
    icClientW.extra_args = none ∧
      "--source-ip" ∉ valueTokens icClientW {} ∧
      "--source-port" ∉ valueTokens icClientW {} ∧
      "--lower-level" ∉ valueTokens icClientW {} ∧
      "--dev" ∉ valueTokens icClientW {} ∧
      "--disable-anti-replay" ∉ valueTokens icClientW {} ∧
      "--disable-bpf" ∉ valueTokens icClientW {} ∧
      (("--source-ip" ∈ buildCmd Mode.client icClientW {}
          ↔ Mode.client = Mode.client ∧ truthyS icClientW.source_ip = true)
        ∧ ("--source-port" ∈ buildCmd Mode.client icClientW {}
          ↔ Mode.client = Mode.client ∧ truthyN icClientW.source_port = true)
        ∧ ("--lower-level" ∈ buildCmd Mode.client icClientW {} ↔ truthyS icClientW.lower_level = true)
        ∧ ("--dev" ∈ buildCmd Mode.client icClientW {} ↔ truthyS icClientW.dev = true)
        ∧ ("--disable-anti-replay" ∈ buildCmd Mode.client icClientW {}
          ↔ icClientW.disable_anti_replay.getD false = true)
        ∧ ("--disable-bpf" ∈ buildCmd Mode.client icClientW {}
          ↔ icClientW.disable_bpf.getD false = true)) :=
  ⟨rfl, by decide, by decide, by decide, by decide, by decide, by decide,
    optional_flags_iff Mode.client icClientW {} rfl (by decide) (by decide) (by decide)
      (by decide) (by decide) (by decide)⟩

/-! ### C4 -/

/-- C4: the argument vector built for a server-role instance never contains
the client-only source-override flags or the sequence-number emulation flag
(no extra args, no value collision with those flag strings). -/
theorem server_no_client_flags (ic : InstanceConf) (gc : GlobalConf)
    (hx : ic.extra_args = none)
    (h1 : "--source-ip" ∉ valueTokens ic gc)
    (h2 : "--source-port" ∉ valueTokens ic gc)
    (h3 : "--seq-mode" ∉ valueTokens ic gc) :
    "--source-ip" ∉ buildCmd .server ic gc
      ∧ "--source-port" ∉ buildCmd .server ic gc
      ∧ "--seq-mode" ∉ buildCmd .server ic gc := by
  refine ⟨?_, ?_, server_not_mem_seqMode ic gc hx h3⟩
  · rw [mem_buildCmd_sourceIp .server ic gc hx h1]
    simp
  · rw [mem_buildCmd_sourcePort .server ic gc hx h2]
    simp

theorem server_no_client_flags_witness :
    icServerW.extra_args = none ∧
      "--source-ip" ∉ valueTokens icServerW {} ∧
      "--source-port" ∉ valueTokens icServerW {} ∧
      "--seq-mode" ∉ valueTokens icServerW {} ∧
      ("--source-ip" ∉ buildCmd .server icServerW {}
        ∧ "--source-port" ∉ buildCmd .server icServerW {}
        ∧ "--seq-mode" ∉ buildCmd .server icServerW {}) :=
  ⟨rfl, by decide, by decide, by decide,
    server_no_client_flags icServerW {} rfl (by decide) (by decide) (by decide)⟩

/-! ### C5 -/

/-- C5: for a server instance resolving to listen `0.0.0.0:29900` and
forward `127.0.0.1:51820`, the argument vector starts with the binary path,
the server mode flag, then the listen flag and its value as two separate
tokens, then the forward flag and its value as two separate tokens, in that
order (never `=`-joined). -/
theorem server_cmd_endpoint_order (ic : InstanceConf) (gc : GlobalConf)
    (h1 : ic.listen_ip.getD "0.0.0.0" = "0.0.0.0")
    (h2 : ic.listen_port.getD 29900 = 29900)
    (h3 : ic.forward_ip.getD "127.0.0.1" = "127.0.0.1")
    (h4 : ic.forward_port.getD 51820 = 51820) :
    ∃ rest, buildCmd .server ic gc
        = [binPath, "-s", "-l", "0.0.0.0:29900", "-r", "127.0.0.1:51820"] ++ rest := by
  have hm : modeSegment .server ic = ["-s", "-l", "0.0.0.0:29900", "-r", "127.0.0.1:51820"] := by
    unfold modeSegment addrStr
    rw [h1, h2, h3, h4]
    rfl
  refine ⟨["-k", ic.password.getD "secret"]
      ++ ["--raw-mode", ic.raw_mode.getD "faketcp"]
      ++ ["--cipher-mode", ic.cipher_mode.getD "xor"]
      ++ ["--auth-mode", ic.auth_mode.getD "simple"]
      ++ (if ic.auto_iptables.getD true then ["-a"] else [])
      ++ clientSegment .server ic
      ++ advancedSegment ic
      ++ (if gc.wait_lock.getD true then ["--wait-lock"] else [])
      ++ ["--log-level", toString (levelNum (gc.log_level.getD "info"))]
      ++ extraSegment ic, ?_⟩
  unfold buildCmd
  rw [hm]
  simp [List.append_assoc]

theorem server_cmd_endpoint_order_witness :
    ({} : InstanceConf).listen_ip.getD "0.0.0.0" = "0.0.0.0" ∧
      ({} : InstanceConf).listen_port.getD 29900 = 29900 ∧
      ({} : InstanceConf).forward_ip.getD "127.0.0.1" = "127.0.0.1" ∧
      ({} : InstanceConf).forward_port.getD 51820 = 51820 ∧
      ∃ rest, buildCmd .server {} {}
        = [binPath, "-s", "-l", "0.0.0.0:29900", "-r", "127.0.0.1:51820"] ++ rest :=
  ⟨rfl, rfl, rfl, rfl, server_cmd_endpoint_order {} {} rfl rfl rfl rfl⟩

/-! ### C1 -/

theorem startInstance_events (env : Env) (mode : Mode) (ic : InstanceConf)
    (gc : GlobalConf) (idx : Nat) (s : PMState) :
    ∃ tail, (startInstance env mode ic gc idx s).events = s.events ++ tail ∧
      ∀ e ∈ tail, ∃ k, e = Event.spawn k := by
  simp only [startInstance]
  split
  · exact ⟨[], by simp [addLog_events], by simp⟩
  · split
    · exact ⟨[Event.spawn (procKey mode idx)], by simp [addLog_events], by simp⟩
    · exact ⟨[], by simp [addLog_events], by simp⟩

theorem startListAux_events (env : Env) (mode : Mode) (gc : GlobalConf) :
    ∀ (l : List InstanceConf) (idx : Nat) (s : PMState),
      ∃ tail, (startListAux env mode gc l idx s).events = s.events ++ tail ∧
        ∀ e ∈ tail, ∃ k, e = Event.spawn k := by
  intro l
  induction l with
  | nil => exact fun idx s => ⟨[], by simp [startListAux], by simp⟩
  | cons ic rest ih =>
    intro idx s
    unfold startListAux
    by_cases hic : ic.enabled
    · rw [if_pos hic]
      obtain ⟨t1, ht1, hs1⟩ := startInstance_events env mode ic gc idx s
      obtain ⟨t2, ht2, hs2⟩ := ih (idx + 1) (startInstance env mode ic gc idx s)
      refine ⟨t1 ++ t2, ?_, ?_⟩
      · rw [ht2, ht1, List.append_assoc]
      · intro e he
        rcases List.mem_append.1 he with he | he
        · exact hs1 e he
        · exact hs2 e he
    · rw [if_neg hic]
      exact ih (idx + 1) s

/-- C1: on every call, `start_tunnels` first performs the full stop phase —
terminating every tracked live process, clearing the process table, entering
the firewall reconciler — and only afterwards does it perform spawns: the
event trace is the stop phase's events followed by spawn events only. -/
theorem start_tunnels_stops_before_spawning (env : Env) (cfg : Config) (s : PMState) :
    ∃ rest, (startTunnels env cfg s).events
        = s.events ++ terminateEvents s.processes
            ++ [Event.clearTable, Event.fwReconcile] ++ rest
      ∧ ∀ e ∈ rest, ∃ k, e = Event.spawn k := by
  unfold startTunnels
  by_cases hg : cfg.globalConf.enabled.getD false = true
  · rw [hg, if_neg (by decide)]
    obtain ⟨t1, ht1, hs1⟩ := startListAux_events env .server cfg.globalConf cfg.servers 0
      (addLog env (stopAll env s) "System" "Applying configuration...")
    obtain ⟨t2, ht2, hs2⟩ := startListAux_events env .client cfg.globalConf cfg.clients 0 _
    refine ⟨t1 ++ t2, ?_, ?_⟩
    · rw [ht2, ht1, addLog_events, stopAll_events]
      simp
    · intro e he
      rcases List.mem_append.1 he with he | he
      · exact hs1 e he
      · exact hs2 e he
  · rw [Bool.not_eq_true] at hg
    rw [hg, if_pos (by decide)]
    refine ⟨[], ?_, by simp⟩
    rw [addLog_events, addLog_events, stopAll_events]
    simp

/-! ### C9 -/

theorem append_ne_empty (a b : String) (ha : a.length ≠ 0) : (a ++ b) ≠ "" := by
  intro hh
  have hlen := congrArg String.length hh
  rw [String.length_append] at hlen
  have h0 : "".length = 0 := rfl
  rw [h0] at hlen
  omega

theorem addLog_logFile_appended (env : Env) (s : PMState) (al m : String)
    (hm : m ≠ "") (hw : env.fileWriteOk = true) :
    (addLog env s al m).logFile = s.logFile ++ [⟨al, m⟩] := by
  unfold addLog
  rw [if_neg hm, if_pos hw]

theorem keys_dictSet_self (m : List (String × Proc)) (k : String) (v : Proc) :
    k ∈ (dictSet m k v).map Prod.fst := by
  unfold dictSet
  split
  · rename_i h
    simp only [List.any_eq_true, decide_eq_true_eq] at h
    obtain ⟨p, hp, hpk⟩ := h
    exact List.mem_map.2 ⟨(k, v), List.mem_map.2 ⟨p, hp, by rw [if_pos hpk]⟩, rfl⟩
  · simp

theorem keys_dictSet_mono (m : List (String × Proc)) (k k' : String) (v : Proc)
    (h : k' ∈ m.map Prod.fst) : k' ∈ (dictSet m k v).map Prod.fst := by
  unfold dictSet
  split
  · have hfun : (Prod.fst ∘ fun p : String × Proc => if p.1 = k then (k, v) else p)
        = Prod.fst := by
      funext p
      by_cases hpk : p.1 = k <;> simp [hpk]
    rw [List.map_map, hfun]
    exact h
  · rw [List.map_append]
    exact List.mem_append_left _ h

theorem startInstance_keys_mono (env : Env) (mode : Mode) (ic : InstanceConf)
    (gc : GlobalConf) (idx : Nat) (s : PMState) (k' : String)
    (h : k' ∈ s.processes.map Prod.fst) :
    k' ∈ (startInstance env mode ic gc idx s).processes.map Prod.fst := by
  simp only [startInstance]
  split
  · rw [addLog_processes]
    exact h
  · split
    · rw [addLog_processes]
      refine keys_dictSet_mono _ _ _ _ ?_
      rw [addLog_processes]
      exact h
    · rw [addLog_processes, addLog_processes]
      exact h

theorem startInstance_key_added (env : Env) (mode : Mode) (ic : InstanceConf)
    (gc : GlobalConf) (idx : Nat) (s : PMState)
    (hb : env.binExists = true) (hs : env.spawnOk (procKey mode idx) = true) :
    procKey mode idx ∈ (startInstance env mode ic gc idx s).processes.map Prod.fst := by
  simp only [startInstance, hb, hs, Bool.not_true]
  rw [if_neg (by simp), if_pos trivial, addLog_processes]
  exact keys_dictSet_self _ _ _

theorem startInstance_logFile_mono (env : Env) (mode : Mode) (ic : InstanceConf)
    (gc : GlobalConf) (idx : Nat) (s : PMState) (r : LogRecord)
    (h : r ∈ s.logFile) : r ∈ (startInstance env mode ic gc idx s).logFile := by
  simp only [startInstance]
  split
  · exact addLog_logFile_mono _ _ _ _ _ h
  · split
    · exact addLog_logFile_mono _ _ _ _ _ (addLog_logFile_mono _ _ _ _ _ h)
    · exact addLog_logFile_mono _ _ _ _ _ (addLog_logFile_mono _ _ _ _ _ h)

theorem startInstance_spawnFail_logged (env : Env) (mode : Mode) (ic : InstanceConf)
    (gc : GlobalConf) (idx : Nat) (s : PMState)
    (hb : env.binExists = true) (hs : env.spawnOk (procKey mode idx) = false)
    (hw : env.fileWriteOk = true) :
    (⟨ic.aliasName.getD (mode.str ++ "_" ++ toString idx),
        "Failed to start: " ++ env.spawnErr (procKey mode idx)⟩ : LogRecord)
      ∈ (startInstance env mode ic gc idx s).logFile := by
  simp only [startInstance, hb, hs, Bool.not_true]
  rw [if_neg (by simp), if_neg (by simp)]
  rw [addLog_logFile_appended _ _ _ _ (append_ne_empty _ _ (by decide)) hw]
  simp

theorem startInstance_binMissing_logged (env : Env) (mode : Mode) (ic : InstanceConf)
    (gc : GlobalConf) (idx : Nat) (s : PMState)
    (hb : env.binExists = false) (hw : env.fileWriteOk = true) :
    (⟨"System", "udp2raw binary not found at " ++ binPath⟩ : LogRecord)
      ∈ (startInstance env mode ic gc idx s).logFile := by
  simp only [startInstance, hb, Bool.not_false]
  rw [if_pos trivial]
  rw [addLog_logFile_appended _ _ _ _ (append_ne_empty _ _ (by decide)) hw]
  simp

theorem startListAux_keys_mono (env : Env) (mode : Mode) (gc : GlobalConf) :
    ∀ (l : List InstanceConf) (idx : Nat) (s : PMState) (k' : String),
      k' ∈ s.processes.map Prod.fst →
      k' ∈ (startListAux env mode gc l idx s).processes.map Prod.fst := by
  intro l
  induction l with
  | nil =>
    intro idx s k' h
    simpa [startListAux] using h
  | cons ic rest ih =>
    intro idx s k' h
    unfold startListAux
    by_cases hic : ic.enabled = true
    · rw [if_pos hic]
      exact ih (idx + 1) _ _ (startInstance_keys_mono env mode ic gc idx s k' h)
    · rw [if_neg hic]
      exact ih (idx + 1) s k' h

theorem startListAux_logFile_mono (env : Env) (mode : Mode) (gc : GlobalConf) :
    ∀ (l : List InstanceConf) (idx : Nat) (s : PMState) (r : LogRecord),
      r ∈ s.logFile → r ∈ (startListAux env mode gc l idx s).logFile := by
  intro l
  induction l with
  | nil =>
    intro idx s r h
    simpa [startListAux] using h
  | cons ic rest ih =>
    intro idx s r h
    unfold startListAux
    by_cases hic : ic.enabled = true
    · rw [if_pos hic]
      exact ih (idx + 1) _ _ (startInstance_logFile_mono env mode ic gc idx s r h)
    · rw [if_neg hic]
      exact ih (idx + 1) s r h

theorem startListAux_key_added (env : Env) (mode : Mode) (gc : GlobalConf) :
    ∀ (l : List InstanceConf) (idx : Nat) (s : PMState) (i : Nat) (h : i < l.length),
      (l.get ⟨i, h⟩).enabled = true →
      env.binExists = true →
      env.spawnOk (procKey mode (idx + i)) = true →
      procKey mode (idx + i) ∈ (startListAux env mode gc l idx s).processes.map Prod.fst := by
  intro l
  induction l with
  | nil =>
    intro idx s i h
    exact absurd h (by simp)
  | cons ic rest ih =>
    intro idx s i h hen hb hs
    cases i with
    | zero =>
      have hen0 : ic.enabled = true := hen
      simp only [Nat.add_zero] at hs ⊢
      unfold startListAux
      rw [if_pos hen0]
      exact startListAux_keys_mono env mode gc rest (idx + 1) _ _
        (startInstance_key_added env mode ic gc idx s hb hs)
    | succ i =>
      have h1 : i < rest.length := by
        simp only [List.length_cons] at h
        omega
      have hidx : idx + (i + 1) = (idx + 1) + i := by omega
      rw [hidx] at hs ⊢
      unfold startListAux
      by_cases hic : ic.enabled = true
      · rw [if_pos hic]
        exact ih (idx + 1) _ i h1 hen hb hs
      · rw [if_neg hic]
        exact ih (idx + 1) s i h1 hen hb hs

theorem startListAux_spawnFail_logged (env : Env) (mode : Mode) (gc : GlobalConf) :
    ∀ (l : List InstanceConf) (idx : Nat) (s : PMState) (i : Nat) (h : i < l.length),
      (l.get ⟨i, h⟩).enabled = true →
      env.binExists = true →
      env.fileWriteOk = true →
      env.spawnOk (procKey mode (idx + i)) = false →
      (⟨(l.get ⟨i, h⟩).aliasName.getD (mode.str ++ "_" ++ toString (idx + i)),
          "Failed to start: " ++ env.spawnErr (procKey mode (idx + i))⟩ : LogRecord)
        ∈ (startListAux env mode gc l idx s).logFile := by
  intro l
  induction l with
  | nil =>
    intro idx s i h
    exact absurd h (by simp)
  | cons ic rest ih =>
    intro idx s i h hen hb hw hs
    cases i with
    | zero =>
      have hen0 : ic.enabled = true := hen
      simp only [Nat.add_zero] at hs ⊢
      unfold startListAux
      rw [if_pos hen0]
      exact startListAux_logFile_mono env mode gc rest (idx + 1) _ _
        (startInstance_spawnFail_logged env mode ic gc idx s hb hs hw)
    | succ i =>
      have h1 : i < rest.length := by
        simp only [List.length_cons] at h
        omega
      have hidx : idx + (i + 1) = (idx + 1) + i := by omega
      rw [hidx] at hs ⊢
      unfold startListAux
      by_cases hic : ic.enabled = true
      · rw [if_pos hic]
        exact ih (idx + 1) _ i h1 hen hb hw hs
      · rw [if_neg hic]
        exact ih (idx + 1) s i h1 hen hb hw hs

theorem startListAux_binMissing_logged (env : Env) (mode : Mode) (gc : GlobalConf) :
    ∀ (l : List InstanceConf) (idx : Nat) (s : PMState) (i : Nat) (h : i < l.length),
      (l.get ⟨i, h⟩).enabled = true →
      env.binExists = false →
      env.fileWriteOk = true →
      (⟨"System", "udp2raw binary not found at " ++ binPath⟩ : LogRecord)
        ∈ (startListAux env mode gc l idx s).logFile := by
  intro l
  induction l with
  | nil =>
    intro idx s i h
    exact absurd h (by simp)
  | cons ic rest ih =>
    intro idx s i h hen hb hw
    cases i with
    | zero =>
      have hen0 : ic.enabled = true := hen
      unfold startListAux
      rw [if_pos hen0]
      exact startListAux_logFile_mono env mode gc rest (idx + 1) _ _
        (startInstance_binMissing_logged env mode ic gc idx s hb hw)
    | succ i =>
      have h1 : i < rest.length := by
        simp only [List.length_cons] at h
        omega
      unfold startListAux
      by_cases hic : ic.enabled = true
      · rw [if_pos hic]
        exact ih (idx + 1) _ i h1 hen hb hw
      · rw [if_neg hic]
        exact ih (idx + 1) s i h1 hen hb hw

/-- C9 fails as stated on the binary-missing case: the "binary not found"
failure is logged under the `System` alias, and no record carrying the
failing instance's alias (`first`) is appended at all. -/
theorem start_binary_missing_not_alias_logged :
    cfgOneServer.globalConf.enabled.getD false = true ∧
      (cfgOneServer.servers.get ⟨0, by decide⟩).enabled = true ∧
      (cfgOneServer.servers.get ⟨0, by decide⟩).aliasName = some "first" ∧
      envNoBin.binExists = false ∧
      (startTunnels envNoBin cfgOneServer s0).processes = [] ∧
      (startTunnels envNoBin cfgOneServer s0).logFile
        = [⟨"System", "Applying configuration..."⟩,
           ⟨"System", "udp2raw binary not found at " ++ binPath⟩] ∧
      ((startTunnels envNoBin cfgOneServer s0).logFile.all
        (fun r => r.aliasName != "first")) = true :=
  ⟨rfl, rfl, rfl, rfl, rfl, rfl, rfl⟩

/-- C9 amended: a spawn failure for one instance is logged with that
instance's alias; a missing binary is logged per affected instance under the
`System` alias; neither failure raises (the supervisor's run is total by
construction) nor prevents any remaining enabled instance whose own spawn
succeeds from being started and tracked. -/
theorem start_failure_isolated (env : Env) (cfg : Config) (s : PMState)
    (hg : cfg.globalConf.enabled.getD false = true)
    (hw : env.fileWriteOk = true) :
    (∀ i (h : i < cfg.servers.length),
        (cfg.servers.get ⟨i, h⟩).enabled = true →
        env.binExists = true →
        env.spawnOk (procKey .server i) = false →
        (⟨(cfg.servers.get ⟨i, h⟩).aliasName.getD (Mode.server.str ++ "_" ++ toString i),
            "Failed to start: " ++ env.spawnErr (procKey .server i)⟩ : LogRecord)
          ∈ (startTunnels env cfg s).logFile)
    ∧ (∀ i (h : i < cfg.clients.length),
        (cfg.clients.get ⟨i, h⟩).enabled = true →
        env.binExists = true →
        env.spawnOk (procKey .client i) = false →
        (⟨(cfg.clients.get ⟨i, h⟩).aliasName.getD (Mode.client.str ++ "_" ++ toString i),
            "Failed to start: " ++ env.spawnErr (procKey .client i)⟩ : LogRecord)
          ∈ (startTunnels env cfg s).logFile)
    ∧ (∀ i (h : i < cfg.servers.length),
        (cfg.servers.get ⟨i, h⟩).enabled = true →
        env.binExists = false →
        (⟨"System", "udp2raw binary not found at " ++ binPath⟩ : LogRecord)
          ∈ (startTunnels env cfg s).logFile)
    ∧ (∀ i (h : i < cfg.clients.length),
        (cfg.clients.get ⟨i, h⟩).enabled = true →
        env.binExists = false →
        (⟨"System", "udp2raw binary not found at " ++ binPath⟩ : LogRecord)
          ∈ (startTunnels env cfg s).logFile)
    ∧ (∀ i (h : i < cfg.servers.length),
        (cfg.servers.get ⟨i, h⟩).enabled = true →
        env.binExists = true →
        env.spawnOk (procKey .server i) = true →
        procKey .server i ∈ (startTunnels env cfg s).processes.map Prod.fst)
    ∧ (∀ i (h : i < cfg.clients.length),
        (cfg.clients.get ⟨i, h⟩).enabled = true →
        env.binExists = true →
        env.spawnOk (procKey .client i) = true →
        procKey .client i ∈ (startTunnels env cfg s).processes.map Prod.fst) := by
  have hstep : startTunnels env cfg s
      = startListAux env .client cfg.globalConf cfg.clients 0
          (startListAux env .server cfg.globalConf cfg.servers 0
            (addLog env (stopAll env s) "System" "Applying configuration...")) := by
    unfold startTunnels
    rw [hg, if_neg (by decide)]
  rw [hstep]
  set s1 : PMState := addLog env (stopAll env s) "System" "Applying configuration..."
  set s2 : PMState := startListAux env Mode.server cfg.globalConf cfg.servers 0 s1
  refine ⟨?_, ?_, ?_, ?_, ?_, ?_⟩
  · intro i h hen hb hs
    have hrec := startListAux_spawnFail_logged env .server cfg.globalConf cfg.servers 0 s1
      i h hen hb hw (by simpa using hs)
    simp only [Nat.zero_add] at hrec
    exact startListAux_logFile_mono env .client cfg.globalConf cfg.clients 0 s2 _ hrec
  · intro i h hen hb hs
    have hrec := startListAux_spawnFail_logged env .client cfg.globalConf cfg.clients 0 s2
      i h hen hb hw (by simpa using hs)
    simpa using hrec
  · intro i h hen hb
    have hrec := startListAux_binMissing_logged env .server cfg.globalConf cfg.servers 0 s1
      i h hen hb hw
    exact startListAux_logFile_mono env .client cfg.globalConf cfg.clients 0 s2 _ hrec
  · intro i h hen hb
    exact startListAux_binMissing_logged env .client cfg.globalConf cfg.clients 0 s2
      i h hen hb hw
  · intro i h hen hb hs
    have hrec := startListAux_key_added env .server cfg.globalConf cfg.servers 0 s1
      i h hen hb (by simpa using hs)
    simp only [Nat.zero_add] at hrec
    exact startListAux_keys_mono env .client cfg.globalConf cfg.clients 0 s2 _ hrec
  · intro i h hen hb hs
    have hrec := startListAux_key_added env .client cfg.globalConf cfg.clients 0 s2
      i h hen hb (by simpa using hs)
    simpa using hrec

theorem start_failure_isolated_witness :
    cfgTwoServers.globalConf.enabled.getD false = true ∧
      envSpawnFail0.fileWriteOk = true ∧
      ((∀ i (h : i < cfgTwoServers.servers.length),
          (cfgTwoServers.servers.get ⟨i, h⟩).enabled = true →
          envSpawnFail0.binExists = true →
          envSpawnFail0.spawnOk (procKey .server i) = false →
          (⟨(cfgTwoServers.servers.get ⟨i, h⟩).aliasName.getD
                (Mode.server.str ++ "_" ++ toString i),
              "Failed to start: " ++ envSpawnFail0.spawnErr (procKey .server i)⟩ : LogRecord)
            ∈ (startTunnels envSpawnFail0 cfgTwoServers s0).logFile)
      ∧ (∀ i (h : i < cfgTwoServers.clients.length),
          (cfgTwoServers.clients.get ⟨i, h⟩).enabled = true →
          envSpawnFail0.binExists = true →
          envSpawnFail0.spawnOk (procKey .client i) = false →
          (⟨(cfgTwoServers.clients.get ⟨i, h⟩).aliasName.getD
                (Mode.client.str ++ "_" ++ toString i),
              "Failed to start: " ++ envSpawnFail0.spawnErr (procKey .client i)⟩ : LogRecord)
            ∈ (startTunnels envSpawnFail0 cfgTwoServers s0).logFile)
      ∧ (∀ i (h : i < cfgTwoServers.servers.length),
          (cfgTwoServers.servers.get ⟨i, h⟩).enabled = true →
          envSpawnFail0.binExists = false →
          (⟨"System", "udp2raw binary not found at " ++ binPath⟩ : LogRecord)
            ∈ (startTunnels envSpawnFail0 cfgTwoServers s0).logFile)
      ∧ (∀ i (h : i < cfgTwoServers.clients.length),
          (cfgTwoServers.clients.get ⟨i, h⟩).enabled = true →
          envSpawnFail0.binExists = false →
          (⟨"System", "udp2raw binary not found at " ++ binPath⟩ : LogRecord)
            ∈ (startTunnels envSpawnFail0 cfgTwoServers s0).logFile)
      ∧ (∀ i (h : i < cfgTwoServers.servers.length),
          (cfgTwoServers.servers.get ⟨i, h⟩).enabled = true →
          envSpawnFail0.binExists = true →
          envSpawnFail0.spawnOk (procKey .server i) = true →
          procKey .server i
            ∈ (startTunnels envSpawnFail0 cfgTwoServers s0).processes.map Prod.fst)
      ∧ (∀ i (h : i < cfgTwoServers.clients.length),
          (cfgTwoServers.clients.get ⟨i, h⟩).enabled = true →
          envSpawnFail0.binExists = true →
          envSpawnFail0.spawnOk (procKey .client i) = true →
          procKey .client i
            ∈ (startTunnels envSpawnFail0 cfgTwoServers s0).processes.map Prod.fst)) :=
  ⟨rfl, rfl, start_failure_isolated envSpawnFail0 cfgTwoServers s0 rfl rfl⟩

end ProcessManager
